import Mathlib

set_option maxRecDepth 40000

/-!
# Verification of the Midwinter manual-search core

Shallow embedding of the retrieval, relationship-graph, orchestration and
job-tracking core of the MW-website repository.  SQLite tables are modelled as
Lean lists, SQL queries as list operations (a `SELECT … WHERE p ORDER BY k
LIMIT n` becomes `filter` + a stable sort + `take`), the FTS index as a
function field of the database model, Python exceptions as `Except`, and the
external reasoning service of the orchestration loop as an oracle function
from the running conversation to a response.  The functions keep the names of
the Python functions they embed: `search_manual_db`, `show_page_db`,
`filter_by_section_db`, `quick_search_db`, `execute_tool` and the endpoint
loops come from `api/search_api_updated.py`; `search_manual_query`,
`show_page_query`, `filter_by_section_query`, `quick_search_query`,
`can_recruit_query` and `call_tool` come from
`mcp-midwinter-search/server.py`; `RELATIONSHIPS` is transcribed from
`mcp-midwinter-search/build_relationships.py`.
-/

/-- Character-list equality test for a leading segment: `leadEq p l` is true
when `p` is an initial segment of `l`. -/
def leadEq : List Char → List Char → Bool
  | [], _ => true
  | _ :: _, [] => false
  | a :: as, b :: bs => a = b && leadEq as bs

/-- `subAt p l` is true when `p` occurs as a contiguous segment of `l`. -/
def subAt (p : List Char) (l : List Char) : Bool :=
  match l with
  | [] => leadEq p []
  | c :: bs => leadEq p (c :: bs) || subAt p bs

/-- Case-sensitive substring test on strings. -/
def hasSubstr (s w : String) : Bool := subAt w.toList s.toList

/-- ASCII lowercasing of a character list. -/
def lowerChars (l : List Char) : List Char := l.map Char.toLower

/-- Model of a SQLite `LIKE '%w%'` filter: case-insensitive (ASCII)
substring match.  `LIKE` wildcard characters inside `w` are not modelled. -/
def containsCI (s w : String) : Bool := subAt (lowerChars w.toList) (lowerChars s.toList)

/-- Split a character list at every separator character (splitting keeps
empty pieces, exactly like `String.split`). -/
def splitChars (p : Char → Bool) : List Char → List (List Char)
  | [] => [ [] ]
  | c :: cs =>
    if p c then [] :: splitChars p cs
    else
      match splitChars p cs with
      | [] => [ [ c ] ]
      | w :: ws => (c :: w) :: ws

/-- Character-prefix truncation (`substr(content, 1, n)` and Python slicing
`s[:n]` are modelled by taking the first `n` characters). -/
def strTake (s : String) (n : Nat) : String := String.mk (s.toList.take n)

/-- Python `str.split()` with no separator: split on whitespace and drop the
empty pieces. -/
def pyWords (q : String) : List String :=
  ((splitChars Char.isWhitespace q.toList).map (fun w => String.mk w)).filter (fun w => w ≠ "")

/-- A row of the `manual_pages` table. -/
structure Page where
  page_number : Int
  section_type : String
  content : String
deriving Repr, DecidableEq

/-- A row produced by a `manual_fts MATCH` query: the stored page columns
together with the index-generated snippet and the `bm25` relevance score
(lower is better; modelled as an integer score). -/
structure FtsRow where
  page_number : Int
  section_type : String
  snippet : String
  rank : Int
deriving Repr, DecidableEq

/-- A row of the `characters` table (fields used by the search tools).
Optional text columns are modelled as strings, with `""` playing the role of
SQL NULL for Python truthiness tests; `age` is likewise falsy at `0`. -/
structure Character where
  full_name : String
  title : String
  age : Nat
  occupation : String
  biography : String
  search_text : String
deriving Repr, DecidableEq

/-- A row of the `buildings` table. -/
structure Building where
  building_type : String
  description : String
  gameplay_function : String
deriving Repr, DecidableEq

/-- A row of the `enemy_vehicles` table. -/
structure Vehicle where
  vehicle_type : String
  role : String
  description : String
deriving Repr, DecidableEq

/-- A row of the `character_relationships` table, as inserted by
`build_relationships.py`. -/
structure RelEdge where
  from_character : String
  to_character : String
  relationship_type : String
  sentiment : String
deriving Repr, DecidableEq

/-- The unified SQLite database.  `ftsAvailable` is false when the
`manual_fts` virtual table cannot be queried (the situation handled by the
API's bare `except: pass`); in that case a direct FTS query in the MCP server
surfaces as the error string `ftsError`.  Row order of a table models the
physical row order that an unordered `SELECT` returns. -/
structure Db where
  manual_pages : List Page
  ftsAvailable : Bool
  fts : String → List FtsRow
  ftsError : String
  characters : List Character
  buildings : List Building
  enemy_vehicles : List Vehicle
  skills : List String
  relationships : List RelEdge

/-- `ORDER BY rank` comparison (SQL `ORDER BY` is modelled throughout by a
stable insertion sort under the ordering column). -/
def rankLe (a b : FtsRow) : Prop := a.rank ≤ b.rank

instance : DecidableRel rankLe := fun a b => Int.decLe a.rank b.rank

instance : IsTotal FtsRow rankLe := ⟨fun a b => Int.le_total a.rank b.rank⟩

instance : IsTrans FtsRow rankLe := ⟨fun _ _ _ => Int.le_trans⟩

/-- `ORDER BY page_number` comparison. -/
def pageLe (a b : Page) : Prop := a.page_number ≤ b.page_number

instance : DecidableRel pageLe := fun a b => Int.decLe a.page_number b.page_number

instance : IsTotal Page pageLe := ⟨fun a b => Int.le_total a.page_number b.page_number⟩

instance : IsTrans Page pageLe := ⟨fun _ _ _ => Int.le_trans⟩

/-- A `(page_number, section_type, snippet)` result row of either search
tier. -/
structure ResultRow where
  page_number : Int
  section_type : String
  snippet : String
deriving Repr, DecidableEq

/-- The two output lines that `search_manual_db` / `filter_by_section_db`
emit per result row. -/
def renderRow (r : ResultRow) : List String :=
  [ "**Page " ++ toString r.page_number ++ "** [" ++ r.section_type ++ "]",
    "  " ++ r.snippet ++ "\n" ]

/-- Header line followed by the rendered rows, joined by newlines. -/
def renderFound (header : String) (rows : List ResultRow) : String :=
  String.intercalate "\n" (header :: (rows.map renderRow).flatten)

/-- Tier 1 of `search_manual_db`: the FTS query
`SELECT … WHERE manual_fts MATCH ? ORDER BY rank LIMIT 15`; an unavailable
index raises, which the bare `except` turns into zero rows. -/
def tier1Ranked (db : Db) (query : String) : List FtsRow :=
  if db.ftsAvailable then (List.insertionSort rankLe (db.fts query)).take 15 else []

/-- Tier 1 rows projected to result rows. -/
def tier1Rows (db : Db) (query : String) : List ResultRow :=
  (tier1Ranked db query).map (fun r => ⟨r.page_number, r.section_type, r.snippet⟩)

/-- `[w for w in query.split() if len(w) > 2]`. -/
def likeWords (query : String) : List String :=
  (pyWords query).filter (fun w => w.length > 2)

/-- Whether a page satisfies the `OR`-joined `content LIKE ?` clauses. -/
def likeMatch (query : String) (p : Page) : Bool :=
  (likeWords query).any (fun w => containsCI p.content w)

/-- Tier 2 of `search_manual_db`: the `LIKE` fallback query
`SELECT … WHERE content LIKE … OR … ORDER BY page_number LIMIT 15`,
executed only when the word list is non-empty. -/
def tier2Pages (db : Db) (query : String) : List Page :=
  if likeWords query ≠ [] then
    (List.insertionSort pageLe (db.manual_pages.filter (likeMatch query))).take 15
  else []

/-- Tier 2 rows: `substr(content, 1, 500)` as the snippet. -/
def tier2Rows (db : Db) (query : String) : List ResultRow :=
  (tier2Pages db query).map (fun p => ⟨p.page_number, p.section_type, strTake p.content 500⟩)

/-- The rows `search_manual_db` renders: tier 1, falling back to tier 2 when
tier 1 produced no rows. -/
def searchRows (db : Db) (query : String) : List ResultRow :=
  if tier1Rows db query = [] then tier2Rows db query else tier1Rows db query

/-- `search_manual_db` from `api/search_api_updated.py`. -/
def search_manual_db (db : Db) (query : String) : String :=
  let results := searchRows db query
  if results = [] then
    "No results found for '" ++ query ++ "'. Try different keywords or check spelling."
  else
    renderFound ( "Found " ++ toString results.length ++ " results for '" ++ query ++ "':\n") results

/-- `show_page_db` from `api/search_api_updated.py`: `fetchone` on
`SELECT … WHERE page_number = ?`. -/
def show_page_db (db : Db) (page_number : Int) : String :=
  match (db.manual_pages.filter (fun p => p.page_number = page_number)).head? with
  | none => "Page " ++ toString page_number ++ " not found. Valid pages are 1-196."
  | some row =>
    "=== Page " ++ toString row.page_number ++ " [" ++ row.section_type ++ "] ===\n\n" ++ row.content

/-- The `valid_sections` list of `filter_by_section_db`. -/
def valid_sections : List String :=
  [ "characters", "equipment", "locations", "story_sections", "general_content" ]

/-- Tier 1 of `filter_by_section_db`: FTS query with
`AND section_type = ?`. -/
def sectionTier1 (db : Db) (query sec : String) : List FtsRow :=
  if db.ftsAvailable then
    (List.insertionSort rankLe ((db.fts query).filter (fun r => r.section_type = sec))).take 15
  else []

/-- Tier 2 of `filter_by_section_db`: the `LIKE` fallback with
`AND section_type = ?`. -/
def sectionTier2Pages (db : Db) (query sec : String) : List Page :=
  if likeWords query ≠ [] then
    (List.insertionSort pageLe (db.manual_pages.filter (fun p => likeMatch query p && p.section_type = sec))).take 15
  else []

/-- `filter_by_section_db` from `api/search_api_updated.py`. -/
def filter_by_section_db (db : Db) (sec query : String) : String :=
  if sec ∉ valid_sections then
    "Invalid section '" ++ sec ++ "'. Valid sections: " ++ String.intercalate ", " valid_sections
  else
    let t1 := (sectionTier1 db query sec).map
      (fun r => (⟨r.page_number, r.section_type, r.snippet⟩ : ResultRow))
    let results := if t1 = [] then
        (sectionTier2Pages db query sec).map
          (fun p => (⟨p.page_number, p.section_type, strTake p.content 500⟩ : ResultRow))
      else t1
    if results = [] then
      "No results for '" ++ query ++ "' in " ++ sec ++ " section."
    else
      renderFound ( "Found " ++ toString results.length ++ " results for '" ++ query ++ "' in " ++ sec ++ ":\n") results

/-- The `full_name LIKE ? OR search_text LIKE ?` character filter shared by
both `quick_search` implementations. -/
def charMatch (query : String) (c : Character) : Bool :=
  containsCI c.full_name query || containsCI c.search_text query

/-- One character block as printed by `quick_search_db` (bio truncated at
500 characters). -/
def renderCharApi (c : Character) : List String :=
  [ "\n**" ++ c.full_name ++ "**" ]
  ++ (if c.title ≠ "" then [ "  Title: " ++ c.title ] else [])
  ++ (if c.age ≠ 0 then [ "  Age: " ++ toString c.age ] else [])
  ++ (if c.occupation ≠ "" then [ "  Occupation: " ++ c.occupation ] else [])
  ++ (if c.biography ≠ "" then
        [ "  Bio: " ++ (if c.biography.length > 500 then strTake c.biography 500 ++ "..." else c.biography) ]
      else [])

/-- `quick_search_db` from `api/search_api_updated.py`: it queries only the
`characters` table. -/
def quick_search_db (db : Db) (query : String) : String :=
  let chars := (db.characters.filter (charMatch query)).take 10
  let results : List String :=
    if chars ≠ [] then "=== CHARACTERS ===" :: (chars.map renderCharApi).flatten else []
  if results = [] then
    "No entities found matching '" ++ query ++ "'"
  else
    String.intercalate "\n" results

/-- A JSON argument value passed to a tool (only the string and integer
argument types of the registered tools are modelled). -/
inductive ArgVal where
  | str (s : String)
  | int (n : Int)
deriving Repr, DecidableEq

/-- A tool-call argument object, as an association list. -/
abbrev Args := List (String × ArgVal)

/-- Result of `execute_tool`: a returned text, or an uncaught Python
`KeyError` raised by `input_data[field]` on a missing (or non-text/non-int,
conflated here) required argument. -/
inductive PyOut where
  | ok (s : String)
  | keyError (field : String)
deriving Repr, DecidableEq

/-- Dictionary access expecting a string value. -/
def getStrArg (args : Args) (k : String) : Option String :=
  (List.lookup k args).bind (fun v => match v with | .str s => some s | _ => none)

/-- Dictionary access expecting an integer value. -/
def getIntArg (args : Args) (k : String) : Option Int :=
  (List.lookup k args).bind (fun v => match v with | .int n => some n | _ => none)

/-- `execute_tool` from `api/search_api_updated.py`: dispatches on the tool
name and reads required arguments with plain subscription, so a missing
argument raises `KeyError`. -/
def execute_tool (db : Db) (name : String) (input_data : Args) : PyOut :=
  if name = "search_manual" then
    match getStrArg input_data "query" with
    | some q => .ok (search_manual_db db q)
    | none => .keyError "query"
  else if name = "show_page" then
    match getIntArg input_data "page_number" with
    | some n => .ok (show_page_db db n)
    | none => .keyError "page_number"
  else if name = "filter_by_section" then
    match getStrArg input_data "section" with
    | none => .keyError "section"
    | some sec =>
      match getStrArg input_data "query" with
      | none => .keyError "query"
      | some q => .ok (filter_by_section_db db sec q)
  else if name = "quick_search" then
    match getStrArg input_data "query" with
    | some q => .ok (quick_search_db db q)
    | none => .keyError "query"
  else
    .ok ( "Unknown tool: " ++ name)

/-- `search_manual_query` from `mcp-midwinter-search/server.py`: FTS only,
no fallback tier; a failing FTS query surfaces as an error string. -/
def search_manual_query (db : Db) (query : String) : String :=
  if db.ftsAvailable = false then "Error: " ++ db.ftsError
  else
    let results := (List.insertionSort rankLe (db.fts query)).take 15
    if results = [] then
      "No results found for '" ++ query ++ "'"
    else
      renderFound ( "Found " ++ toString results.length ++ " results for '" ++ query ++ "':\n")
        (results.map (fun r => ⟨r.page_number, r.section_type, r.snippet⟩))

/-- The `section_map` dictionary of `filter_by_section_query`; `.get` with
the section itself as default. -/
def section_map (sec : String) : String :=
  if sec = "characters" then "character"
  else if sec = "equipment" then "equipment"
  else if sec = "locations" then "location"
  else if sec = "story_sections" then "story"
  else if sec = "general_content" then "general"
  else sec

/-- `filter_by_section_query` from `mcp-midwinter-search/server.py`: no
section-name validation, FTS query with `section_type LIKE ?` and no
`ORDER BY`. -/
def filter_by_section_query (db : Db) (sec query : String) : String :=
  if db.ftsAvailable = false then "Error: " ++ db.ftsError
  else
    let st := section_map sec
    let results := ((db.fts query).filter (fun r => containsCI r.section_type st)).take 15
    if results = [] then
      "No results found for '" ++ query ++ "' in section '" ++ sec ++ "'"
    else
      renderFound ( "Found " ++ toString results.length ++ " results in '" ++ sec ++ "':\n")
        (results.map (fun r => ⟨r.page_number, r.section_type, r.snippet⟩))

/-- `show_page_query` from `mcp-midwinter-search/server.py`: its not-found
message does not mention the valid page range. -/
def show_page_query (db : Db) (page_number : Int) : String :=
  match (db.manual_pages.filter (fun p => p.page_number = page_number)).head? with
  | none => "Page " ++ toString page_number ++ " not found"
  | some row =>
    "=== Page " ++ toString row.page_number ++ " [" ++ row.section_type ++ "] ===\n\n" ++ row.content

/-- One character block as printed by `quick_search_query` (bio truncated at
300 characters). -/
def renderCharServer (c : Character) : List String :=
  [ "\n**" ++ c.full_name ++ "**" ]
  ++ (if c.title ≠ "" then [ "  Title: " ++ c.title ] else [])
  ++ (if c.age ≠ 0 then [ "  Age: " ++ toString c.age ] else [])
  ++ (if c.occupation ≠ "" then [ "  Occupation: " ++ c.occupation ] else [])
  ++ (if c.biography ≠ "" then
        [ "  Bio: " ++ (if c.biography.length > 300 then strTake c.biography 300 ++ "..." else c.biography) ]
      else [])

/-- The `building_type LIKE ? OR description LIKE ?` filter. -/
def buildingMatch (query : String) (b : Building) : Bool :=
  containsCI b.building_type query || containsCI b.description query

/-- One building block as printed by `quick_search_query`. -/
def renderBuilding (b : Building) : List String :=
  [ "\n**" ++ b.building_type ++ "**" ]
  ++ (if b.description ≠ "" then [ "  " ++ b.description ] else [])
  ++ (if b.gameplay_function ≠ "" then [ "  Function: " ++ b.gameplay_function ] else [])

/-- The `vehicle_type LIKE ? OR description LIKE ?` filter. -/
def vehicleMatch (query : String) (v : Vehicle) : Bool :=
  containsCI v.vehicle_type query || containsCI v.description query

/-- One enemy-vehicle block as printed by `quick_search_query`. -/
def renderVehicle (v : Vehicle) : List String :=
  [ "\n**" ++ v.vehicle_type ++ "**" ]
  ++ (if v.role ≠ "" then [ "  Role: " ++ v.role ] else [])
  ++ (if v.description ≠ "" then [ "  " ++ v.description ] else [])

/-- The `results` line list built by `quick_search_query`: a labeled block
per kind (characters, buildings, enemy vehicles — the `skills` table is not
searched), each kind capped at 10 rows by `LIMIT 10`. -/
def quickSearchBlocks (db : Db) (query : String) : List String :=
  let chars := (db.characters.filter (charMatch query)).take 10
  let buildings := (db.buildings.filter (buildingMatch query)).take 10
  let vehicles := (db.enemy_vehicles.filter (vehicleMatch query)).take 10
  (if chars ≠ [] then "=== CHARACTERS ===" :: (chars.map renderCharServer).flatten else [])
  ++ (if buildings ≠ [] then "\n=== BUILDINGS ===" :: (buildings.map renderBuilding).flatten else [])
  ++ (if vehicles ≠ [] then "\n=== ENEMY VEHICLES ===" :: (vehicles.map renderVehicle).flatten else [])

/-- `quick_search_query` from `mcp-midwinter-search/server.py`. -/
def quick_search_query (db : Db) (query : String) : String :=
  let results := quickSearchBlocks db query
  if results = [] then
    "No entities found matching '" ++ query ++ "'"
  else
    String.intercalate "\n" results

/-- Minimum of a page-number list (0 on the impossible empty case). -/
def minPageOf (l : List Int) : Int :=
  match l with
  | [] => 0
  | x :: xs => xs.foldl min x

/-- Maximum of a page-number list (0 on the impossible empty case). -/
def maxPageOf (l : List Int) : Int :=
  match l with
  | [] => 0
  | x :: xs => xs.foldl max x

/-- `ORDER BY first_page` comparison for section summary rows. -/
def groupLe (a b : String × Nat × Int × Int) : Prop := a.2.2.1 ≤ b.2.2.1

instance : DecidableRel groupLe := fun a b => Int.decLe a.2.2.1 b.2.2.1

/-- Alphabetical `ORDER BY` on a name column. -/
def strLe (a b : String) : Prop := a ≤ b

instance : DecidableRel strLe := fun a b => inferInstanceAs (Decidable (a ≤ b))

/-- The `GROUP BY section_type … ORDER BY first_page` rows of
`list_sections_query`: `(section_type, count, first_page, last_page)`. -/
def sectionGroups (pages : List Page) : List (String × Nat × Int × Int) :=
  List.insertionSort groupLe
    (((pages.map (fun p => p.section_type)).eraseDups).map (fun st =>
      let nums := (pages.filter (fun p => p.section_type = st)).map (fun p => p.page_number)
      (st, nums.length, minPageOf nums, maxPageOf nums)))

/-- `list_sections_query` from `mcp-midwinter-search/server.py`. -/
def list_sections_query (db : Db) : String :=
  let rows := sectionGroups db.manual_pages
  let body := rows.map (fun r =>
    "**" ++ r.1 ++ "**: " ++ toString r.2.1 ++ " pages (pp. " ++ toString r.2.2.1 ++ "-" ++ toString r.2.2.2 ++ ")")
  let total := rows.foldl (fun acc r => acc + r.2.1) 0
  String.intercalate "\n" (( "=== MANUAL SECTIONS ===\n" :: body) ++ [ "\n**Total: " ++ toString total ++ " pages**" ])

/-- `list_entities_query` from `mcp-midwinter-search/server.py`
(`ORDER BY` on names modelled by a stable sort under string order). -/
def list_entities_query (db : Db) : String :=
  let chars := List.insertionSort strLe (db.characters.map (fun c => c.full_name))
  let buildings := List.insertionSort strLe (db.buildings.map (fun b => b.building_type))
  let vehicles := List.insertionSort strLe (db.enemy_vehicles.map (fun v => v.vehicle_type))
  let skills := List.insertionSort strLe db.skills
  String.intercalate "\n"
    ([ "=== CHARACTERS (" ++ toString chars.length ++ ") ===", String.intercalate ", " chars,
       "\n=== BUILDINGS (" ++ toString buildings.length ++ ") ===", String.intercalate ", " buildings,
       "\n=== ENEMY VEHICLES (" ++ toString vehicles.length ++ ") ===", String.intercalate ", " vehicles ]
     ++ (if skills ≠ [] then [ "\n=== SKILLS (" ++ toString skills.length ++ ") ===", String.intercalate ", " skills ] else []))

/-- Name resolution shared by the relationship tools:
`SELECT full_name FROM characters WHERE full_name LIKE ?` + `fetchone`,
i.e. the first name containing the given text case-insensitively. -/
def resolveName (names : List String) (name : String) : Option String :=
  (names.filter (fun n => containsCI n name)).head?

/-- The `(from = target, to = recruiter, sentiment = negative)` edges
consulted by `can_recruit_query`. -/
def blockedEdges (edges : List RelEdge) (recruiter target : String) : List RelEdge :=
  edges.filter (fun e =>
    e.from_character = target && e.to_character = recruiter && e.sentiment = "negative")

/-- The `(from = recruiter, to = target, sentiment = positive)` edges
consulted by `can_recruit_query`. -/
def positiveEdges (edges : List RelEdge) (recruiter target : String) : List RelEdge :=
  edges.filter (fun e =>
    e.from_character = recruiter && e.to_character = target && e.sentiment = "positive")

/-- The three-way decision of `can_recruit_query`: blocked (reverse negative
edge) beats positive (forward positive edge) beats unknown. -/
inductive RecruitDecision where
  | no (reasons : List String)
  | yes (reasons : List String)
  | unknown
deriving Repr, DecidableEq

/-- Branch selection of `can_recruit_query` on resolved names. -/
def recruitDecision (edges : List RelEdge) (recruiter_match target_match : String) : RecruitDecision :=
  if blockedEdges edges recruiter_match target_match ≠ [] then
    .no ((blockedEdges edges recruiter_match target_match).map (fun e => e.relationship_type))
  else if positiveEdges edges recruiter_match target_match ≠ [] then
    .yes ((positiveEdges edges recruiter_match target_match).map (fun e => e.relationship_type))
  else .unknown

/-- The output lines `can_recruit_query` appends after its header. -/
def renderRecruit (recruiter_match target_match : String) : RecruitDecision → List String
  | .no reasons =>
    [ "NO - " ++ target_match ++ " " ++ String.intercalate ", " reasons ++ " " ++ recruiter_match ]
  | .yes reasons =>
    [ "YES - " ++ recruiter_match ++ " is " ++ String.intercalate ", " reasons ++ " with " ++ target_match ]
  | .unknown =>
    [ "UNKNOWN - No direct relationship found", "(They are not friends, but also not enemies)" ]

/-- `can_recruit_query` after both names have been resolved. -/
def can_recruit_core (edges : List RelEdge) (recruiter_match target_match : String) : String :=
  String.intercalate "\n"
    (( "=== Can " ++ recruiter_match ++ " recruit " ++ target_match ++ "? ===\n")
      :: renderRecruit recruiter_match target_match (recruitDecision edges recruiter_match target_match))

/-- `can_recruit_query` from `mcp-midwinter-search/server.py`, including the
name-resolution prologue. -/
def can_recruit_query (db : Db) (recruiter target : String) : String :=
  match resolveName (db.characters.map (fun c => c.full_name)) recruiter with
  | none => "Character '" ++ recruiter ++ "' not found"
  | some recruiter_match =>
    match resolveName (db.characters.map (fun c => c.full_name)) target with
    | none => "Character '" ++ target ++ "' not found"
    | some target_match => can_recruit_core db.relationships recruiter_match target_match

/-- `who_can_recruit_query` from `mcp-midwinter-search/server.py`. -/
def who_can_recruit_query (db : Db) (target : String) : String :=
  match resolveName (db.characters.map (fun c => c.full_name)) target with
  | none => "Character '" ++ target ++ "' not found"
  | some target_match =>
    let canR := db.relationships.filter (fun e =>
      e.from_character = target_match && e.sentiment = "positive")
    let cannotR := db.relationships.filter (fun e =>
      e.from_character = target_match && e.sentiment = "negative")
    String.intercalate "\n"
      (( "=== Who can recruit " ++ target_match ++ "? ===\n")
        :: ((if canR ≠ [] then
              "CAN RECRUIT:" :: canR.map (fun e => "  - " ++ e.to_character ++ " (" ++ e.relationship_type ++ ")")
            else [ "CAN RECRUIT: No specific friends listed" ])
          ++ (if cannotR ≠ [] then
                "\nCANNOT RECRUIT:" :: cannotR.map (fun e => "  - " ++ e.to_character ++ " (" ++ e.relationship_type ++ ")")
              else [ "\nCANNOT RECRUIT: No enemies listed" ])))

/-- `get_enemies_query` from `mcp-midwinter-search/server.py`. -/
def get_enemies_query (db : Db) (character : String) : String :=
  match resolveName (db.characters.map (fun c => c.full_name)) character with
  | none => "Character '" ++ character ++ "' not found"
  | some char_match =>
    let dislikes := db.relationships.filter (fun e =>
      e.from_character = char_match && e.sentiment = "negative")
    let dislikedBy := db.relationships.filter (fun e =>
      e.to_character = char_match && e.sentiment = "negative")
    String.intercalate "\n"
      (( "=== Enemies of " ++ char_match ++ " ===\n")
        :: ((if dislikes ≠ [] then
              (char_match ++ " DISLIKES:") :: dislikes.map (fun e => "  - " ++ e.to_character ++ " (" ++ e.relationship_type ++ ")")
            else [])
          ++ (if dislikedBy ≠ [] then
                "\nDISLIKED BY:" :: dislikedBy.map (fun e => "  - " ++ e.from_character ++ " (" ++ e.relationship_type ++ ")")
              else [])
          ++ (if dislikes = [] ∧ dislikedBy = [] then [ "No enemies found!" ] else [])))

/-- `get_friends_query` from `mcp-midwinter-search/server.py`. -/
def get_friends_query (db : Db) (character : String) : String :=
  match resolveName (db.characters.map (fun c => c.full_name)) character with
  | none => "Character '" ++ character ++ "' not found"
  | some char_match =>
    let friends := db.relationships.filter (fun e =>
      e.from_character = char_match && e.sentiment = "positive")
    let likedBy := db.relationships.filter (fun e =>
      e.to_character = char_match && e.sentiment = "positive")
    String.intercalate "\n"
      (( "=== Friends of " ++ char_match ++ " ===\n")
        :: ((if friends ≠ [] then
              (char_match ++ " LIKES:") :: friends.map (fun e => "  - " ++ e.to_character ++ " (" ++ e.relationship_type ++ ")")
            else [])
          ++ (if likedBy ≠ [] then
                "\nLIKED BY:" :: likedBy.map (fun e => "  - " ++ e.from_character ++ " (" ++ e.relationship_type ++ ")")
              else [])
          ++ (if friends = [] ∧ likedBy = [] then [ "No friends found!" ] else [])))

/-- `call_tool` from `mcp-midwinter-search/server.py`: every argument is
read with `arguments.get(key, default)`, so a missing argument is silently
replaced by `""` (or `0` for `page_number`) and the tool still runs. -/
def call_tool (db : Db) (name : String) (arguments : Args) : String :=
  if name = "quick_search" then
    quick_search_query db ((getStrArg arguments "query").getD "")
  else if name = "search_manual" then
    search_manual_query db ((getStrArg arguments "query").getD "")
  else if name = "filter_by_section" then
    filter_by_section_query db ((getStrArg arguments "section").getD "") ((getStrArg arguments "query").getD "")
  else if name = "show_page" then
    show_page_query db ((getIntArg arguments "page_number").getD 0)
  else if name = "list_sections" then
    list_sections_query db
  else if name = "list_entities" then
    list_entities_query db
  else if name = "can_recruit" then
    can_recruit_query db ((getStrArg arguments "recruiter").getD "") ((getStrArg arguments "target").getD "")
  else if name = "who_can_recruit" then
    who_can_recruit_query db ((getStrArg arguments "target").getD "")
  else if name = "get_enemies" then
    get_enemies_query db ((getStrArg arguments "character").getD "")
  else if name = "get_friends" then
    get_friends_query db ((getStrArg arguments "character").getD "")
  else
    "Unknown tool: " ++ name

set_option maxHeartbeats 1600000 in
/-- The `RELATIONSHIPS` list of
`mcp-midwinter-search/build_relationships.py`, transcribed in order. -/
def RELATIONSHIPS : List RelEdge :=
  [ ⟨ "Captain John Stark", "Lieutenant Howard Courtenay", "friend", "positive" ⟩,
    ⟨ "Captain John Stark", "Karl Rudzinski", "friend", "positive" ⟩,
    ⟨ "Captain John Stark", "Nurse Sarah Maddocks", "lover", "positive" ⟩,
    ⟨ "Constable Harvey Pringle", "Constable Gordon Macleod", "regards_as_friend", "positive" ⟩,
    ⟨ "Constable Harvey Pringle", "Constable Fergus Flynn", "regards_as_friend", "positive" ⟩,
    ⟨ "Constable Harvey Pringle", "Jean-Luc Chabrun", "blames", "negative" ⟩,
    ⟨ "Constable Gordon Macleod", "Franco Grazzini", "dislikes", "negative" ⟩,
    ⟨ "Franco Grazzini", "Constable Gordon Macleod", "dislikes", "negative" ⟩,
    ⟨ "Sergeant George Tasker", "Constable Gordon Macleod", "respects", "positive" ⟩,
    ⟨ "Captain John Stark", "Constable Gordon Macleod", "respects", "positive" ⟩,
    ⟨ "Karl Rudzinski", "Virginia Caygill", "engaged", "positive" ⟩,
    ⟨ "Karl Rudzinski", "Jeremiah Gunn", "dislikes", "negative" ⟩,
    ⟨ "Karl Rudzinski", "Franco Grazzini", "dislikes", "negative" ⟩,
    ⟨ "Karl Rudzinski", "Captain John Stark", "mentor", "positive" ⟩,
    ⟨ "Franco Grazzini", "Virginia Caygill", "in_love", "positive" ⟩,
    ⟨ "Franco Grazzini", "Karl Rudzinski", "hates", "negative" ⟩,
    ⟨ "Franco Grazzini", "Nurse Sarah Maddocks", "admires", "positive" ⟩,
    ⟨ "Jean-Luc Chabrun", "Constable Fergus Flynn", "friend", "positive" ⟩,
    ⟨ "Jean-Luc Chabrun", "Constable Gordon Macleod", "friend", "positive" ⟩,
    ⟨ "Sergeant Victor Grice", "Jean-Luc Chabrun", "hates", "negative" ⟩,
    ⟨ "Constable Harvey Pringle", "Jean-Luc Chabrun", "hates", "negative" ⟩,
    ⟨ "Constable Bill Doughty", "Jean-Luc Chabrun", "hates", "negative" ⟩,
    ⟨ "Sergeant George Tasker", "Doctor Pierre Revel", "unforgiven", "negative" ⟩,
    ⟨ "Sergeant George Tasker", "Jeremiah Gunn", "disapproves", "negative" ⟩,
    ⟨ "Sergeant George Tasker", "Lieutenant Charles Ambler", "disapproves", "negative" ⟩,
    ⟨ "Lieutenant Barnaby Gaunt", "Sergeant Tom Llewellyn", "dislikes", "negative" ⟩,
    ⟨ "Gregory Flint", "Sergeant Tom Llewellyn", "grudge", "negative" ⟩,
    ⟨ "Sergeant Victor Grice", "Captain John Stark", "resents", "negative" ⟩,
    ⟨ "Sergeant Victor Grice", "Lieutenant Barnaby Gaunt", "resents", "negative" ⟩,
    ⟨ "Sergeant Victor Grice", "Lieutenant Howard Courtenay", "respects", "positive" ⟩,
    ⟨ "Doctor Pierre Revel", "Lieutenant Howard Courtenay", "friend", "positive" ⟩,
    ⟨ "Konrad Rudel", "Davy Hart", "friend", "positive" ⟩,
    ⟨ "Virginia Caygill", "Karl Rudzinski", "engaged", "positive" ⟩,
    ⟨ "Virginia Caygill", "Doctor Pierre Revel", "despises", "negative" ⟩,
    ⟨ "Virginia Caygill", "Davy Hart", "teacher", "positive" ⟩,
    ⟨ "Virginia Caygill", "Jenny Adams", "teacher", "positive" ⟩,
    ⟨ "Professor Olaf Kristiansen", "Captain John Stark", "dislikes", "negative" ⟩,
    ⟨ "Professor Olaf Kristiansen", "Lieutenant Howard Courtenay", "dislikes", "negative" ⟩,
    ⟨ "Professor Olaf Kristiansen", "Gregory Flint", "friend", "positive" ⟩,
    ⟨ "Professor Olaf Kristiansen", "Davy Hart", "grandparent", "positive" ⟩,
    ⟨ "Jeremiah Gunn", "Franco Grazzini", "friend", "positive" ⟩,
    ⟨ "Jeremiah Gunn", "Nurse Sarah Maddocks", "friend", "positive" ⟩,
    ⟨ "Constable Federico Garcia", "Constable Kurt Muller", "friend", "positive" ⟩,
    ⟨ "Constable Homer Wright", "Constable Kurt Muller", "friend", "positive" ⟩,
    ⟨ "Constable Homer Wright", "Constable Oliver Jessop", "friend", "positive" ⟩,
    ⟨ "Constable Homer Wright", "Constable Shigeru Iwamoto", "friend", "positive" ⟩,
    ⟨ "Constable Luke Jackson", "Constable Homer Wright", "loathes", "negative" ⟩,
    ⟨ "Constable Shigeru Iwamoto", "Constable Homer Wright", "friend", "positive" ⟩,
    ⟨ "Constable Bill Doughty", "Constable Kurt Muller", "friend", "positive" ⟩,
    ⟨ "Constable Bill Doughty", "Constable Federico Garcia", "friend", "positive" ⟩,
    ⟨ "Lieutenant Howard Courtenay", "Constable Bill Doughty", "dislikes", "negative" ⟩,
    ⟨ "Lieutenant Howard Courtenay", "Captain John Stark", "friend", "positive" ⟩,
    ⟨ "Lieutenant Howard Courtenay", "Virginia Caygill", "family", "positive" ⟩,
    ⟨ "Lieutenant Howard Courtenay", "Doctor Pierre Revel", "friend", "positive" ⟩,
    ⟨ "Davy Hart", "Professor Olaf Kristiansen", "grandchild", "positive" ⟩,
    ⟨ "Davy Hart", "Konrad Rudel", "hero", "positive" ⟩,
    ⟨ "Davy Hart", "Jenny Adams", "boyfriend", "positive" ⟩,
    ⟨ "Davy Hart", "Virginia Caygill", "crush", "positive" ⟩,
    ⟨ "Jenny Adams", "Nurse Sarah Maddocks", "admires", "positive" ⟩,
    ⟨ "Jenny Adams", "Davy Hart", "boyfriend", "positive" ⟩,
    ⟨ "Constable Bob Hammond", "Constable Harry Cropper", "friend", "positive" ⟩,
    ⟨ "Constable Oliver Jessop", "Constable Fergus Flynn", "dislikes", "negative" ⟩,
    ⟨ "Constable Oliver Jessop", "Constable Gordon Macleod", "dislikes", "negative" ⟩,
    ⟨ "Constable Oliver Jessop", "Constable Homer Wright", "friend", "positive" ⟩,
    ⟨ "Constable Oliver Jessop", "Constable Shigeru Iwamoto", "friend", "positive" ⟩,
    ⟨ "Lieutenant Barnaby Gaunt", "Captain John Stark", "respects", "positive" ⟩,
    ⟨ "Lieutenant Barnaby Gaunt", "Sergeant George Tasker", "respects", "positive" ⟩,
    ⟨ "Lieutenant Barnaby Gaunt", "Sergeant Tom Llewellyn", "scornful", "negative" ⟩,
    ⟨ "Lieutenant Barnaby Gaunt", "Lieutenant Charles Ambler", "scornful", "negative" ⟩,
    ⟨ "Lieutenant Barnaby Gaunt", "Constable Fergus Flynn", "scornful", "negative" ⟩,
    ⟨ "Lieutenant Barnaby Gaunt", "Constable Harry Cropper", "scornful", "negative" ⟩,
    ⟨ "Nurse Sarah Maddocks", "Captain John Stark", "lover", "positive" ⟩,
    ⟨ "Nurse Sarah Maddocks", "Franco Grazzini", "fond", "positive" ⟩,
    ⟨ "Nurse Sarah Maddocks", "Doctor Pierre Revel", "dislikes", "negative" ⟩,
    ⟨ "Constable Kurt Muller", "Constable Federico Garcia", "friend", "positive" ⟩,
    ⟨ "Constable Kurt Muller", "Constable Bill Doughty", "friend", "positive" ⟩,
    ⟨ "Constable Kurt Muller", "Constable Homer Wright", "friend", "positive" ⟩,
    ⟨ "Constable Kurt Muller", "Constable Shigeru Iwamoto", "dislikes", "negative" ⟩,
    ⟨ "Constable Luke Jackson", "Captain John Stark", "hates", "negative" ⟩,
    ⟨ "Constable Luke Jackson", "Constable Federico Garcia", "friend", "positive" ⟩,
    ⟨ "Constable Luke Jackson", "Gregory Flint", "friend", "positive" ⟩,
    ⟨ "Gregory Flint", "Captain John Stark", "blames", "negative" ⟩,
    ⟨ "Gregory Flint", "Lieutenant Barnaby Gaunt", "blames", "negative" ⟩,
    ⟨ "Gregory Flint", "Sergeant Tom Llewellyn", "blames", "negative" ⟩,
    ⟨ "Gregory Flint", "Professor Olaf Kristiansen", "friend", "positive" ⟩,
    ⟨ "Gregory Flint", "Constable Luke Jackson", "friend", "positive" ⟩,
    ⟨ "Gregory Flint", "Constable Fergus Flynn", "friend", "positive" ⟩,
    ⟨ "Lieutenant Charles Ambler", "Karl Rudzinski", "friend", "positive" ⟩,
    ⟨ "Lieutenant Charles Ambler", "Constable Harry Cropper", "friend", "positive" ⟩,
    ⟨ "Lieutenant Charles Ambler", "Lieutenant Barnaby Gaunt", "dislikes", "negative" ⟩ ]

/-- A content block of a reasoning-service response: a text block or a tool
invocation request. -/
inductive Block where
  | text (s : String)
  | toolUse (id : String) (name : String) (input : Args)
deriving Repr

/-- A reasoning-service response: the stop reason (the loops test it against
`"tool_use"`) and the content blocks. -/
structure ModelResponse where
  stop_reason : String
  content : List Block
deriving Repr

/-- The content of a conversation message: the initial user query, an
assistant turn echoed back, the collected tool results, or tool results
followed by the forced-finalization instruction text. -/
inductive MsgContent where
  | userText (s : String)
  | assistantBlocks (blocks : List Block)
  | toolResults (rs : List (String × String))
  | toolResultsWithText (rs : List (String × String)) (s : String)
deriving Repr

/-- One conversation message. -/
structure Message where
  role : String
  content : MsgContent
deriving Repr

/-- The external reasoning service: given whether tool definitions were
passed with the request and the conversation so far, it produces a
response.  Each application is one exchange (one `client.messages.create`
call). -/
def Service : Type := Bool → List Message → ModelResponse

/-- Execute every `tool_use` block of a response in request order, pairing
each tool-use id with its result; an uncaught `KeyError` from
`execute_tool` aborts (propagating to the endpoint's `except` handler). -/
def execTools (db : Db) : List Block → Except String (List (String × String))
  | [] => .ok []
  | .text _ :: bs => execTools db bs
  | .toolUse id name input :: bs =>
    match execute_tool db name input with
    | .ok r => (execTools db bs).map (fun rest => (id, r) :: rest)
    | .keyError k => .error ( "'" ++ k ++ "'")

/-- `hasattr(block, 'text')` text extraction: concatenate the text blocks. -/
def extractText (blocks : List Block) : String :=
  blocks.foldl (fun acc b => match b with | .text s => acc ++ s | _ => acc) ""

/-- The `while response.stop_reason == "tool_use" and rounds < ceiling` loop
shared by the three endpoints.  `fuel` is the number of rounds the counter
still allows; the returned list records one boolean per exchange already
made (`true` = tools were passed with the request), extended by this loop. -/
def toolLoop (db : Db) (service : Service) :
    Nat → List Message → ModelResponse → List Bool →
    Except String (ModelResponse × List Message × List Bool)
  | 0, msgs, resp, log => .ok (resp, msgs, log)
  | fuel + 1, msgs, resp, log =>
    if resp.stop_reason = "tool_use" then
      match execTools db resp.content with
      | .error e => .error e
      | .ok trs =>
        let msgs1 := msgs ++ [ ⟨ "assistant", .assistantBlocks resp.content ⟩,
                               ⟨ "user", .toolResults trs ⟩ ]
        let resp1 := service true msgs1
        toolLoop db service fuel msgs1 resp1 (log ++ [ true ])
    else .ok (resp, msgs, log)

/-- The `/api/search/fast` endpoint loop (`search_fast`): ceiling 2, no
forced finalization; an empty extracted answer falls back to a fixed
sentinel (`answer or "No results found."`).  Returns the answer text and
the per-exchange log. -/
def search_fast (db : Db) (service : Service) (query : String) :
    Except String (String × List Bool) :=
  let msgs0 : List Message := [ ⟨ "user", .userText query ⟩ ]
  let resp0 := service true msgs0
  match toolLoop db service 2 msgs0 resp0 [ true ] with
  | .error e => .error e
  | .ok (resp1, _, log) =>
    let answer := extractText resp1.content
    .ok ((if answer = "" then "No results found." else answer), log)

/-- The `/api/search` endpoint loop (`search`): ceiling 5, no forced
finalization; the raw final text is returned (the citation-regex
post-processing of the final text is not modelled). -/
def search_endpoint (db : Db) (service : Service) (query : String) :
    Except String (String × List Bool) :=
  let msgs0 : List Message := [ ⟨ "user", .userText query ⟩ ]
  let resp0 := service true msgs0
  match toolLoop db service 5 msgs0 resp0 [ true ] with
  | .error e => .error e
  | .ok (resp1, _, log) => .ok (extractText resp1.content, log)

/-- `run_search_job` (background worker): ceiling 6, then, if the service
still requests tools, one forced-finalization exchange — its tool requests
are still executed, but the final `messages.create` call passes no tool
definitions (`false` in the log). -/
def run_search_job (db : Db) (service : Service) (query : String) :
    Except String (String × List Bool) :=
  let msgs0 : List Message := [ ⟨ "user", .userText query ⟩ ]
  let resp0 := service true msgs0
  match toolLoop db service 6 msgs0 resp0 [ true ] with
  | .error e => .error e
  | .ok (resp1, msgs1, log1) =>
    if resp1.stop_reason = "tool_use" then
      match execTools db resp1.content with
      | .error e => .error e
      | .ok trs =>
        let msgs2 := msgs1 ++ [ ⟨ "assistant", .assistantBlocks resp1.content ⟩,
          ⟨ "user", .toolResultsWithText trs "Now provide your final answer based on all search results." ⟩ ]
        let resp2 := service false msgs2
        .ok (extractText resp2.content, log1 ++ [ false ])
    else .ok (extractText resp1.content, log1)

/-- A record of the `search_jobs` dictionary. -/
inductive JobRecord where
  | pending (created : String)
  | running
  | complete (result : String)
  | error (msg : String)
deriving Repr, DecidableEq

/-- The `search_jobs` dictionary, as a finite-support map from job ids. -/
def Jobs : Type := String → Option JobRecord

/-- The `status` field name of a record. -/
def statusName : JobRecord → String
  | .pending _ => "pending"
  | .running => "running"
  | .complete _ => "complete"
  | .error _ => "error"

/-- The JSON body `search_status` answers with. -/
inductive StatusResponse where
  | notFound
  | completeResp (result : String)
  | errorResp (msg : String)
  | statusOnly (status : String)
deriving Repr, DecidableEq

/-- `search_status` from `api/search_api_updated.py`: unknown id answers
NotFound; a terminal record is returned and deleted (`del search_jobs[id]`);
a non-terminal record answers with its status only and is kept. -/
def search_status (jobs : Jobs) (job_id : String) : StatusResponse × Jobs :=
  match jobs job_id with
  | none => (.notFound, jobs)
  | some job =>
    match job with
    | .complete r => (.completeResp r, fun j => if j = job_id then none else jobs j)
    | .error m => (.errorResp m, fun j => if j = job_id then none else jobs j)
    | other => (.statusOnly (statusName other), jobs)

/-- `search_start` from `api/search_api_updated.py`: store a fresh pending
record under the (externally generated) job id and acknowledge it.  The
spawned worker is `run_search_job`. -/
def search_start (jobs : Jobs) (job_id created : String) : (String × String) × Jobs :=
  ((job_id, "pending"), fun j => if j = job_id then some (.pending created) else jobs j)

/-- The dense-page invariant of the corpus: every stored page number lies in
1..196 and every number in 1..196 is stored. -/
def pagesValid (db : Db) : Prop :=
  (∀ p ∈ db.manual_pages, 1 ≤ p.page_number ∧ p.page_number ≤ 196) ∧
  (∀ k ∈ List.range' 1 196, ∃ p ∈ db.manual_pages, p.page_number = (k : Int))

/-- A reasoning service whose tool requests always carry their required
arguments, so that no dispatch raises. -/
def goodService (db : Db) (service : Service) : Prop :=
  ∀ (b : Bool) (msgs : List Message), ∃ trs, execTools db ((service b msgs).content) = Except.ok trs

/-- A service that requests a tool call on every exchange, used to drive the
loops to their ceilings. -/
def alwaysToolService : Service :=
  fun _ _ => ⟨ "tool_use", [ Block.toolUse "t1" "nope" [] ] ⟩

/-- A database with empty tables and an empty (but available) FTS index. -/
def emptyDb : Db :=
  { manual_pages := [], ftsAvailable := true, fts := fun _ => [], ftsError := "",
    characters := [], buildings := [], enemy_vehicles := [], skills := [],
    relationships := [] }

/-- Page `k` of the sample manual. -/
def pageFor (k : Nat) : Page :=
  ⟨ (k : Int), "general", "manual text " ++ toString k ⟩

/-- A sample database holding exactly the pages 1..196. -/
def exManualDb : Db :=
  { manual_pages := (List.range' 1 196).map pageFor, ftsAvailable := true,
    fts := fun _ => [], ftsError := "", characters := [], buildings := [],
    enemy_vehicles := [], skills := [], relationships := [] }

/-- A sample database whose only entity is a building. -/
def exEntityDb : Db :=
  { manual_pages := [], ftsAvailable := true, fts := fun _ => [], ftsError := "",
    characters := [], buildings := [ ⟨ "Warm Hut", "A small shelter", "rest" ⟩ ],
    enemy_vehicles := [], skills := [], relationships := [] }

/-- A sample database with two pages and an FTS index that matches nothing,
so that the substring fallback tier decides the result. -/
def exFallbackDb : Db :=
  { manual_pages := [ ⟨ 1, "general", "it is snowing" ⟩, ⟨ 2, "story", "skiing is fun" ⟩ ],
    ftsAvailable := true, fts := fun _ => [], ftsError := "", characters := [],
    buildings := [], enemy_vehicles := [], skills := [], relationships := [] }

/-- A sample job table holding one completed job. -/
def exJobs : Jobs :=
  fun j => if j = "job1" then some (.complete "the result") else none

lemma filter_ne_nil_iff {α : Type} {p : α → Bool} {l : List α} :
    l.filter p ≠ [] ↔ ∃ x ∈ l, p x = true := by
  simp [Ne, List.filter_eq_nil_iff]

lemma blockedEdges_ne_nil_iff {edges : List RelEdge} {r t : String} :
    blockedEdges edges r t ≠ [] ↔
      ∃ e ∈ edges, e.from_character = t ∧ e.to_character = r ∧ e.sentiment = "negative" := by
  simp [blockedEdges, Ne, List.filter_eq_nil_iff]

lemma positiveEdges_ne_nil_iff {edges : List RelEdge} {r t : String} :
    positiveEdges edges r t ≠ [] ↔
      ∃ e ∈ edges, e.from_character = r ∧ e.to_character = t ∧ e.sentiment = "positive" := by
  simp [positiveEdges, Ne, List.filter_eq_nil_iff]

lemma recruitDecision_no {edges : List RelEdge} {r t : String}
    (h : blockedEdges edges r t ≠ []) :
    recruitDecision edges r t =
      .no ((blockedEdges edges r t).map (fun e => e.relationship_type)) := by
  unfold recruitDecision
  rw [if_pos h]

lemma recruitDecision_yes {edges : List RelEdge} {r t : String}
    (hb : blockedEdges edges r t = []) (hp : positiveEdges edges r t ≠ []) :
    recruitDecision edges r t =
      .yes ((positiveEdges edges r t).map (fun e => e.relationship_type)) := by
  unfold recruitDecision
  rw [if_neg (by simp [hb]), if_pos hp]

lemma recruitDecision_unknown {edges : List RelEdge} {r t : String}
    (hb : blockedEdges edges r t = []) (hp : positiveEdges edges r t = []) :
    recruitDecision edges r t = .unknown := by
  unfold recruitDecision
  rw [if_neg (by simp [hb]), if_neg (by simp [hp])]

/-- C1: for every resolved recruiter and target, `can_recruit` applies
block-before-permit precedence: a reverse negative edge forces NO with all
matching labels listed (even when a forward positive edge exists); otherwise
a forward positive edge forces YES with the matching labels; otherwise the
result is UNKNOWN. -/
theorem c1_can_recruit_block_before_permit (edges : List RelEdge) (recruiter target : String) :
    ((∃ e ∈ edges, e.from_character = target ∧ e.to_character = recruiter ∧ e.sentiment = "negative") →
      can_recruit_core edges recruiter target =
        String.intercalate "\n"
          [ "=== Can " ++ recruiter ++ " recruit " ++ target ++ "? ===\n",
            "NO - " ++ target ++ " " ++
              String.intercalate ", " ((blockedEdges edges recruiter target).map (fun e => e.relationship_type)) ++
              " " ++ recruiter ])
    ∧ ((¬ ∃ e ∈ edges, e.from_character = target ∧ e.to_character = recruiter ∧ e.sentiment = "negative") →
       (∃ e ∈ edges, e.from_character = recruiter ∧ e.to_character = target ∧ e.sentiment = "positive") →
      can_recruit_core edges recruiter target =
        String.intercalate "\n"
          [ "=== Can " ++ recruiter ++ " recruit " ++ target ++ "? ===\n",
            "YES - " ++ recruiter ++ " is " ++
              String.intercalate ", " ((positiveEdges edges recruiter target).map (fun e => e.relationship_type)) ++
              " with " ++ target ])
    ∧ ((¬ ∃ e ∈ edges, e.from_character = target ∧ e.to_character = recruiter ∧ e.sentiment = "negative") →
       (¬ ∃ e ∈ edges, e.from_character = recruiter ∧ e.to_character = target ∧ e.sentiment = "positive") →
      can_recruit_core edges recruiter target =
        String.intercalate "\n"
          [ "=== Can " ++ recruiter ++ " recruit " ++ target ++ "? ===\n",
            "UNKNOWN - No direct relationship found",
            "(They are not friends, but also not enemies)" ]) := by
  refine ⟨?_, ?_, ?_⟩
  · intro h
    have hb : blockedEdges edges recruiter target ≠ [] := blockedEdges_ne_nil_iff.2 h
    rw [can_recruit_core, recruitDecision_no hb]
    rfl
  · intro hn hp
    have hb : blockedEdges edges recruiter target = [] := by
      by_contra hc
      exact hn (blockedEdges_ne_nil_iff.1 hc)
    have hpp : positiveEdges edges recruiter target ≠ [] := positiveEdges_ne_nil_iff.2 hp
    rw [can_recruit_core, recruitDecision_yes hb hpp]
    rfl
  · intro hn hp
    have hb : blockedEdges edges recruiter target = [] := by
      by_contra hc
      exact hn (blockedEdges_ne_nil_iff.1 hc)
    have hpp : positiveEdges edges recruiter target = [] := by
      by_contra hc
      exact hp (positiveEdges_ne_nil_iff.1 hc)
    rw [can_recruit_core, recruitDecision_unknown hb hpp]
    rfl

/-- C1 witness: the spec example `can_recruit("Stark","Courtenay")` on the
transcribed relationship table, YES with reason `friend`. -/
theorem c1_can_recruit_witness :
    can_recruit_core RELATIONSHIPS "Captain John Stark" "Lieutenant Howard Courtenay" =
      String.intercalate "\n"
        [ "=== Can Captain John Stark recruit Lieutenant Howard Courtenay? ===\n",
          "YES - Captain John Stark is friend with Lieutenant Howard Courtenay" ] := by
  have h := (c1_can_recruit_block_before_permit RELATIONSHIPS
    "Captain John Stark" "Lieutenant Howard Courtenay").2.1 (by decide) (by decide)
  exact h.trans (by decide)

/-- C5 counterexample: the table records relationships between Constable
Harvey Pringle and Jean-Luc Chabrun (Pringle blames and hates Chabrun), yet
`can_recruit(Pringle, Chabrun)` is UNKNOWN — so UNKNOWN does not mean "no
relationship recorded in either direction". -/
theorem c5_unknown_counterexample :
    (∃ e ∈ RELATIONSHIPS,
        (e.from_character = "Constable Harvey Pringle" ∧ e.to_character = "Jean-Luc Chabrun") ∨
        (e.from_character = "Jean-Luc Chabrun" ∧ e.to_character = "Constable Harvey Pringle")) ∧
    recruitDecision RELATIONSHIPS "Constable Harvey Pringle" "Jean-Luc Chabrun" =
      RecruitDecision.unknown := by
  constructor
  · exact ⟨ ⟨ "Constable Harvey Pringle", "Jean-Luc Chabrun", "blames", "negative" ⟩,
      by decide, by decide⟩
  · decide

/-- C5 amended: `can_recruit(recruiter, target)` is UNKNOWN exactly when
there is no positive edge recruiter→target and no negative edge
target→recruiter; other recorded relationships between the two (a negative
forward edge or a positive reverse edge) still yield UNKNOWN. -/
theorem c5_unknown_iff (edges : List RelEdge) (recruiter target : String) :
    recruitDecision edges recruiter target = RecruitDecision.unknown ↔
      ((¬ ∃ e ∈ edges, e.from_character = recruiter ∧ e.to_character = target ∧ e.sentiment = "positive") ∧
       (¬ ∃ e ∈ edges, e.from_character = target ∧ e.to_character = recruiter ∧ e.sentiment = "negative")) := by
  constructor
  · intro h
    by_cases hb : blockedEdges edges recruiter target = []
    · by_cases hp : positiveEdges edges recruiter target = []
      · refine ⟨?_, ?_⟩
        · intro hc
          exact positiveEdges_ne_nil_iff.2 hc hp
        · intro hc
          exact blockedEdges_ne_nil_iff.2 hc hb
      · rw [recruitDecision_yes hb hp] at h
        exact absurd h (by simp)
    · rw [recruitDecision_no hb] at h
      exact absurd h (by simp)
  · intro ⟨hp, hn⟩
    have hb : blockedEdges edges recruiter target = [] := by
      by_contra hc
      exact hn (blockedEdges_ne_nil_iff.1 hc)
    have hpp : positiveEdges edges recruiter target = [] := by
      by_contra hc
      exact hp (positiveEdges_ne_nil_iff.1 hc)
    exact recruitDecision_unknown hb hpp

/-- C3: `status(id)` answers NotFound on an unknown id; returns only the
current status on a non-terminal job, leaving the table unchanged; returns
the stored result (complete) or error message (error) on a terminal job and
deletes the record, so an immediately subsequent `status(id)` answers
NotFound — terminal jobs are consumed exactly once. -/
theorem c3_status_one_shot (jobs : Jobs) (job_id : String) :
    (jobs job_id = none → search_status jobs job_id = (.notFound, jobs))
    ∧ (∀ c, jobs job_id = some (.pending c) →
        search_status jobs job_id = (.statusOnly "pending", jobs))
    ∧ (jobs job_id = some .running →
        search_status jobs job_id = (.statusOnly "running", jobs))
    ∧ (∀ r, jobs job_id = some (.complete r) →
        (search_status jobs job_id).1 = .completeResp r ∧
        (search_status jobs job_id).2 job_id = none ∧
        (search_status (search_status jobs job_id).2 job_id).1 = .notFound)
    ∧ (∀ m, jobs job_id = some (.error m) →
        (search_status jobs job_id).1 = .errorResp m ∧
        (search_status jobs job_id).2 job_id = none ∧
        (search_status (search_status jobs job_id).2 job_id).1 = .notFound) := by
  refine ⟨?_, ?_, ?_, ?_, ?_⟩
  · intro h
    simp [search_status, h]
  · intro c h
    simp [search_status, h, statusName]
  · intro h
    simp [search_status, h, statusName]
  · intro r h
    refine ⟨by simp [search_status, h], by simp [search_status, h], ?_⟩
    have h2 : (search_status jobs job_id).2 job_id = none := by simp [search_status, h]
    generalize hm : (search_status jobs job_id).2 = m2 at h2 ⊢
    simp [search_status, h2]
  · intro m h
    refine ⟨by simp [search_status, h], by simp [search_status, h], ?_⟩
    have h2 : (search_status jobs job_id).2 job_id = none := by simp [search_status, h]
    generalize hm : (search_status jobs job_id).2 = m2 at h2 ⊢
    simp [search_status, h2]

/-- C3 witness: a table holding one completed job, read twice. -/
theorem c3_status_one_shot_witness :
    (search_status exJobs "job1").1 = .completeResp "the result" ∧
    (search_status exJobs "job1").2 "job1" = none ∧
    (search_status (search_status exJobs "job1").2 "job1").1 = .notFound :=
  (c3_status_one_shot exJobs "job1").2.2.2.1 "the result" (by simp [exJobs])

lemma toolLoop_ok (db : Db) (service : Service) (hs : goodService db service) :
    ∀ (fuel : Nat) (msgs : List Message) (resp : ModelResponse) (log : List Bool),
      (∃ trs, execTools db resp.content = Except.ok trs) →
      ∃ resp1 msgs1 j, j ≤ fuel ∧
        toolLoop db service fuel msgs resp log =
          .ok (resp1, msgs1, log ++ List.replicate j true) ∧
        (∃ trs, execTools db resp1.content = Except.ok trs) ∧
        (resp1.stop_reason = "tool_use" → j = fuel) := by
  intro fuel
  induction fuel with
  | zero =>
    intro msgs resp log h
    exact ⟨resp, msgs, 0, Nat.le_refl 0, by simp [toolLoop], h, fun _ => rfl⟩
  | succ n ih =>
    intro msgs resp log h
    by_cases hr : resp.stop_reason = "tool_use"
    · obtain ⟨trs, htrs⟩ := h
      obtain ⟨resp1, msgs1, j, hj, heq, hok, himp⟩ :=
        ih (msgs ++ [ ⟨ "assistant", .assistantBlocks resp.content ⟩, ⟨ "user", .toolResults trs ⟩ ])
          (service true (msgs ++ [ ⟨ "assistant", .assistantBlocks resp.content ⟩, ⟨ "user", .toolResults trs ⟩ ]))
          (log ++ [ true ]) (hs true _)
      refine ⟨resp1, msgs1, j + 1, Nat.succ_le_succ hj, ?_, hok, fun htu => by rw [himp htu]⟩
      simp only [toolLoop]
      rw [if_pos hr, htrs]
      simp only []
      rw [heq]
      simp [List.append_assoc, List.replicate_succ]
    · refine ⟨resp, msgs, 0, Nat.zero_le _, ?_, h, fun htu => absurd htu hr⟩
      simp only [toolLoop]
      rw [if_neg hr]
      simp

/-- C2 counterexample: driven by a service that requests a tool on every
exchange, the background loop (`run_search_job`, round ceiling 6) performs 8
exchanges with the service — the initial one, 6 counted tool rounds and the
forced-finalization exchange — which exceeds `round_ceiling + 1 = 7`. -/
theorem c2_exchange_count_counterexample :
    run_search_job emptyDb alwaysToolService "query" =
      .ok ( "", [ true, true, true, true, true, true, true, false ]) ∧
    ([ true, true, true, true, true, true, true, false ] : List Bool).length = 8 ∧
    ¬ ((8 : Nat) ≤ 6 + 1) := by
  refine ⟨rfl, by decide, by decide⟩

/-- C2 amended: for any reasoning-service behavior (with well-formed tool
arguments), every loop terminates with a final answer text.  The
short-interactive loop (`search_fast`, ceiling 2) and standard-interactive
loop (`search_endpoint`, ceiling 5) perform at most `round_ceiling + 1`
exchanges, all with tool invocation enabled (there is no forced-finalization
exchange); the background loop (`run_search_job`, ceiling 6) performs at
most `round_ceiling + 2` exchanges, and it exceeds `round_ceiling + 1` only
by the one forced-finalization exchange with tool invocation disabled. -/
theorem c2_loop_bounds_amended (db : Db) (service : Service) (query : String)
    (hs : goodService db service) :
    (∃ ans log, search_fast db service query = .ok (ans, log) ∧
        log.length ≤ 2 + 1 ∧ ∀ b ∈ log, b = true)
    ∧ (∃ ans log, search_endpoint db service query = .ok (ans, log) ∧
        log.length ≤ 5 + 1 ∧ ∀ b ∈ log, b = true)
    ∧ (∃ ans log, run_search_job db service query = .ok (ans, log) ∧
        log.length ≤ 6 + 2 ∧
        (log = List.replicate 7 true ++ [ false ] ∨
          (log.length ≤ 6 + 1 ∧ ∀ b ∈ log, b = true))) := by
  refine ⟨?_, ?_, ?_⟩
  · obtain ⟨resp1, msgs1, j, hj, heq, hok, himp⟩ :=
      toolLoop_ok db service hs 2 [ ⟨ "user", .userText query ⟩ ]
        (service true [ ⟨ "user", .userText query ⟩ ]) [ true ] (hs true _)
    have heq2 : search_fast db service query =
        .ok ((if extractText resp1.content = "" then "No results found."
              else extractText resp1.content), [ true ] ++ List.replicate j true) := by
      simp only [search_fast]
      rw [heq]
    refine ⟨_, _, heq2, ?_, ?_⟩
    · simp only [List.length_append, List.length_replicate, List.length_singleton]
      omega
    · intro b hb
      rcases List.mem_append.1 hb with hb1 | hb1
      · simpa using hb1
      · exact List.eq_of_mem_replicate hb1
  · obtain ⟨resp1, msgs1, j, hj, heq, hok, himp⟩ :=
      toolLoop_ok db service hs 5 [ ⟨ "user", .userText query ⟩ ]
        (service true [ ⟨ "user", .userText query ⟩ ]) [ true ] (hs true _)
    have heq2 : search_endpoint db service query =
        .ok (extractText resp1.content, [ true ] ++ List.replicate j true) := by
      simp only [search_endpoint]
      rw [heq]
    refine ⟨_, _, heq2, ?_, ?_⟩
    · simp only [List.length_append, List.length_replicate, List.length_singleton]
      omega
    · intro b hb
      rcases List.mem_append.1 hb with hb1 | hb1
      · simpa using hb1
      · exact List.eq_of_mem_replicate hb1
  · obtain ⟨resp1, msgs1, j, hj, heq, hok, himp⟩ :=
      toolLoop_ok db service hs 6 [ ⟨ "user", .userText query ⟩ ]
        (service true [ ⟨ "user", .userText query ⟩ ]) [ true ] (hs true _)
    by_cases hr : resp1.stop_reason = "tool_use"
    · have hj6 : j = 6 := himp hr
      subst hj6
      obtain ⟨trs2, htrs2⟩ := hok
      have hrep : ([ true ] ++ List.replicate 6 true) ++ [ false ] =
          List.replicate 7 true ++ [ false ] := by decide
      have heq2 : run_search_job db service query =
          .ok (extractText ((service false (msgs1 ++
              [ ⟨ "assistant", .assistantBlocks resp1.content ⟩,
                ⟨ "user", .toolResultsWithText trs2 "Now provide your final answer based on all search results." ⟩ ])).content),
            List.replicate 7 true ++ [ false ]) := by
        simp only [run_search_job]
        rw [heq]
        dsimp only
        rw [if_pos hr, htrs2]
        dsimp only
        rw [hrep]
      refine ⟨_, _, heq2, by decide, Or.inl rfl⟩
    · have heq2 : run_search_job db service query =
          .ok (extractText resp1.content, [ true ] ++ List.replicate j true) := by
        simp only [run_search_job]
        rw [heq]
        dsimp only
        rw [if_neg hr]
      refine ⟨_, _, heq2, ?_, Or.inr ⟨?_, ?_⟩⟩
      · simp only [List.length_append, List.length_replicate, List.length_singleton]
        omega
      · simp only [List.length_append, List.length_replicate, List.length_singleton]
        omega
      · intro b hb
        rcases List.mem_append.1 hb with hb1 | hb1
        · simpa using hb1
        · exact List.eq_of_mem_replicate hb1

/-- C2 witness: the bounds evaluated against the always-requesting service
on an empty database. -/
theorem c2_loop_bounds_witness :
    (∃ ans log, search_fast emptyDb alwaysToolService "query" = .ok (ans, log) ∧
        log.length ≤ 2 + 1 ∧ ∀ b ∈ log, b = true)
    ∧ (∃ ans log, search_endpoint emptyDb alwaysToolService "query" = .ok (ans, log) ∧
        log.length ≤ 5 + 1 ∧ ∀ b ∈ log, b = true)
    ∧ (∃ ans log, run_search_job emptyDb alwaysToolService "query" = .ok (ans, log) ∧
        log.length ≤ 6 + 2 ∧
        (log = List.replicate 7 true ++ [ false ] ∨
          (log.length ≤ 6 + 1 ∧ ∀ b ∈ log, b = true))) :=
  c2_loop_bounds_amended emptyDb alwaysToolService "query"
    (fun _ _ => ⟨ [ ("t1", "Unknown tool: nope") ], rfl⟩)


set_option maxRecDepth 4000 in
/-- C4: `search_manual` returns at most 15 results; the indexed tier is
ordered best-first (ascending) by rank; whenever the indexed tier yields
zero rows or the index is unavailable, the fallback tier decides the
result; the fallback tier keeps only pages containing some query word of
length > 2 as a case-insensitive substring (OR across words), ordered by
ascending page number, capped at 15, complete below the cap, with a
≤ 500-character prefix of the page content as snippet. -/
theorem c4_search_manual_tiers (db : Db) (query : String) :
    ((searchRows db query).length ≤ 15)
    ∧ (tier1Ranked db query).Pairwise (fun a b => a.rank ≤ b.rank)
    ∧ (tier1Rows db query = [] → searchRows db query = tier2Rows db query)
    ∧ (db.ftsAvailable = false → searchRows db query = tier2Rows db query)
    ∧ (tier2Pages db query).Pairwise (fun a b => a.page_number ≤ b.page_number)
    ∧ (∀ p ∈ tier2Pages db query, p ∈ db.manual_pages ∧
         ∃ w ∈ pyWords query, 2 < w.length ∧ containsCI p.content w = true)
    ∧ (∀ p ∈ db.manual_pages,
         (∃ w ∈ pyWords query, 2 < w.length ∧ containsCI p.content w = true) →
         (db.manual_pages.filter (likeMatch query)).length ≤ 15 →
         p ∈ tier2Pages db query)
    ∧ (∀ r ∈ tier2Rows db query, ∃ p ∈ tier2Pages db query,
         r.page_number = p.page_number ∧ r.section_type = p.section_type ∧
         r.snippet = strTake p.content 500) := by
  have hlen1 : (tier1Rows db query).length ≤ 15 := by
    simp only [tier1Rows, List.length_map, tier1Ranked]
    split
    · exact List.length_take_le 15 _
    · simp
  have hlen2 : (tier2Rows db query).length ≤ 15 := by
    simp only [tier2Rows, List.length_map, tier2Pages]
    split
    · exact List.length_take_le 15 _
    · simp
  refine ⟨?_, ?_, ?_, ?_, ?_, ?_, ?_, ?_⟩
  · simp only [searchRows]
    split
    · exact hlen2
    · exact hlen1
  · simp only [tier1Ranked]
    split
    · refine List.Pairwise.sublist (List.take_sublist _ _) ?_
      exact (List.sorted_insertionSort rankLe (db.fts query)).imp (fun hab => hab)
    · simp
  · intro h
    simp [searchRows, h]
  · intro h
    have h1 : tier1Rows db query = [] := by
      simp [tier1Rows, tier1Ranked, h]
    simp [searchRows, h1]
  · simp only [tier2Pages]
    split
    · refine List.Pairwise.sublist (List.take_sublist _ _) ?_
      exact (List.sorted_insertionSort pageLe (db.manual_pages.filter (likeMatch query))).imp
        (fun hab => hab)
    · simp
  · intro p hp
    simp only [tier2Pages] at hp
    by_cases hw : likeWords query ≠ []
    · rw [if_pos hw] at hp
      have hp2 := List.mem_of_mem_take hp
      have hp3 := (List.perm_insertionSort pageLe (db.manual_pages.filter (likeMatch query))).mem_iff.1 hp2
      obtain ⟨hmem, hmatch⟩ := List.mem_filter.1 hp3
      refine ⟨hmem, ?_⟩
      simp only [likeMatch, List.any_eq_true, likeWords, List.mem_filter,
        decide_eq_true_eq] at hmatch
      obtain ⟨w, ⟨hwp, hwl⟩, hwc⟩ := hmatch
      exact ⟨w, hwp, hwl, hwc⟩
    · rw [if_neg hw] at hp
      simp at hp
  · intro p hmem hex hcap
    obtain ⟨w, hwp, hwl, hwc⟩ := hex
    have hwlw : w ∈ likeWords query := by
      simp only [likeWords, List.mem_filter, decide_eq_true_eq]
      exact ⟨hwp, hwl⟩
    have hw : likeWords query ≠ [] := List.ne_nil_of_mem hwlw
    have hmatch : likeMatch query p = true := by
      simp only [likeMatch, List.any_eq_true]
      exact ⟨w, hwlw, hwc⟩
    have hpf : p ∈ db.manual_pages.filter (likeMatch query) :=
      List.mem_filter.2 ⟨hmem, hmatch⟩
    have hperm := List.perm_insertionSort pageLe (db.manual_pages.filter (likeMatch query))
    have hps : p ∈ List.insertionSort pageLe (db.manual_pages.filter (likeMatch query)) :=
      hperm.mem_iff.2 hpf
    have hlen : (List.insertionSort pageLe (db.manual_pages.filter (likeMatch query))).length ≤ 15 := by
      rw [hperm.length_eq]
      exact hcap
    simp only [tier2Pages]
    rw [if_pos hw, List.take_of_length_le hlen]
    exact hps
  · intro r hr
    simp only [tier2Rows, List.mem_map] at hr
    obtain ⟨p, hp, rfl⟩ := hr
    exact ⟨p, hp, rfl, rfl, rfl⟩

/-- C4 witness: on a database whose FTS index matches nothing, the fallback
tier serves the query `"skiing snow"` and both pages match. -/
theorem c4_search_manual_witness :
    searchRows exFallbackDb "skiing snow" = tier2Rows exFallbackDb "skiing snow" ∧
    (searchRows exFallbackDb "skiing snow").length ≤ 15 ∧
    (⟨ 1, "general", "it is snowing" ⟩ : Page) ∈ tier2Pages exFallbackDb "skiing snow" := by
  have h := c4_search_manual_tiers exFallbackDb "skiing snow"
  refine ⟨h.2.2.1 (by decide), h.1, ?_⟩
  exact h.2.2.2.2.2.2.1 ⟨ 1, "general", "it is snowing" ⟩ (by decide) (by decide) (by decide)

instance (db : Db) : Decidable (pagesValid db) := by
  unfold pagesValid
  infer_instance

/-- C6 counterexample: on a database satisfying the 1..196 page invariant,
the MCP server's `show_page(0)` answers `"Page 0 not found"` — a NotFound
result that does not name the valid range 1-196 (only the API variant
does). -/
theorem c6_show_page_counterexample :
    pagesValid exManualDb ∧
    show_page_query exManualDb 0 = "Page 0 not found" ∧
    hasSubstr (show_page_query exManualDb 0) "1-196" = false := by
  refine ⟨by decide, by decide, by decide⟩

/-- C6 amended: for every page number 1..196 both `show_page`
implementations return the stored content of a page with that number, with
its section tag, declaring that page number; outside 1..196 both return
NotFound, the API implementation naming the valid range 1-196 and the MCP
server implementation merely reporting the page as not found. -/
theorem c6_show_page_range (db : Db) (h : pagesValid db) (n : Int) :
    (1 ≤ n → n ≤ 196 →
      ∃ p, p ∈ db.manual_pages ∧ p.page_number = n ∧
        show_page_db db n =
          "=== Page " ++ toString n ++ " [" ++ p.section_type ++ "] ===\n\n" ++ p.content ∧
        show_page_query db n =
          "=== Page " ++ toString n ++ " [" ++ p.section_type ++ "] ===\n\n" ++ p.content)
    ∧ ((n < 1 ∨ 196 < n) →
        show_page_db db n = "Page " ++ toString n ++ " not found. Valid pages are 1-196." ∧
        show_page_query db n = "Page " ++ toString n ++ " not found") := by
  constructor
  · intro h1 h2
    have hk : n.toNat ∈ List.range' 1 196 := by
      rw [List.mem_range'_1]
      omega
    obtain ⟨p, hpm, hpn⟩ := h.2 n.toNat hk
    have hpn' : p.page_number = n := by
      rw [hpn]
      omega
    have hpf : p ∈ db.manual_pages.filter (fun q => q.page_number = n) :=
      List.mem_filter.2 ⟨hpm, by simp [hpn']⟩
    rcases hfl : db.manual_pages.filter (fun q => q.page_number = n) with _ | ⟨row, rest⟩
    · rw [hfl] at hpf
      simp at hpf
    · have hrowf : row ∈ db.manual_pages.filter (fun q => q.page_number = n) := by
        rw [hfl]
        exact List.mem_cons_self row rest
      obtain ⟨hrowm, hrown⟩ := List.mem_filter.1 hrowf
      have hrown' : row.page_number = n := by simpa using hrown
      refine ⟨row, hrowm, hrown', ?_, ?_⟩
      · rw [show_page_db, hfl]
        simp [hrown']
      · rw [show_page_query, hfl]
        simp [hrown']
  · intro hn
    have hfl : db.manual_pages.filter (fun q => q.page_number = n) = [] := by
      rw [List.filter_eq_nil_iff]
      intro p hp
      have := h.1 p hp
      simp only [decide_eq_true_eq]
      omega
    constructor
    · rw [show_page_db, hfl]
      rfl
    · rw [show_page_query, hfl]
      rfl

/-- C6 witness: page 3 and the out-of-range page 197 on the sample
database. -/
theorem c6_show_page_range_witness :
    (∃ p, p ∈ exManualDb.manual_pages ∧ p.page_number = 3 ∧
      show_page_db exManualDb 3 =
        "=== Page " ++ toString (3 : Int) ++ " [" ++ p.section_type ++ "] ===\n\n" ++ p.content ∧
      show_page_query exManualDb 3 =
        "=== Page " ++ toString (3 : Int) ++ " [" ++ p.section_type ++ "] ===\n\n" ++ p.content) ∧
    (show_page_db exManualDb 197 = "Page " ++ toString (197 : Int) ++ " not found. Valid pages are 1-196." ∧
     show_page_query exManualDb 197 = "Page " ++ toString (197 : Int) ++ " not found") :=
  ⟨(c6_show_page_range exManualDb (by decide) 3).1 (by decide) (by decide),
   (c6_show_page_range exManualDb (by decide) 197).2 (Or.inr (by decide))⟩

/-- C7 counterexample: for the unknown section name `"weapons"` the MCP
server's `filter_by_section` does not return a Validation error — it runs
the search with the unmapped name as section filter and reports no
results. -/
theorem c7_invalid_section_counterexample :
    "weapons" ∉ valid_sections ∧
    filter_by_section_query exManualDb "weapons" "laser" =
      "No results found for 'laser' in section 'weapons'" ∧
    filter_by_section_query exManualDb "weapons" "laser" ≠
      "Invalid section 'weapons'. Valid sections: characters, equipment, locations, story_sections, general_content" := by
  refine ⟨by decide, by decide, by decide⟩

/-- C7 amended: for a section name outside the five valid ones, the API's
`filter_by_section` refuses to search and returns a Validation error
enumerating exactly the five valid section names, while the MCP server's
`filter_by_section` leaves the name unmapped and performs the FTS search
with it as section filter (returning search output, e.g. a no-results
message when nothing matches). -/
theorem c7_invalid_section (db : Db) (sec query : String) (h : sec ∉ valid_sections) :
    filter_by_section_db db sec query =
      "Invalid section '" ++ sec ++ "'. Valid sections: characters, equipment, locations, story_sections, general_content"
    ∧ section_map sec = sec
    ∧ (db.ftsAvailable = true →
        ((db.fts query).filter (fun r => containsCI r.section_type sec)).take 15 = [] →
        filter_by_section_query db sec query =
          "No results found for '" ++ query ++ "' in section '" ++ sec ++ "'") := by
  have hmap : section_map sec = sec := by
    simp only [valid_sections, List.mem_cons, List.not_mem_nil, or_false] at h
    push_neg at h
    obtain ⟨h1, h2, h3, h4, h5⟩ := h
    simp [section_map, h1, h2, h3, h4, h5]
  refine ⟨?_, hmap, ?_⟩
  · rw [filter_by_section_db, if_pos h]
    have hlit : String.intercalate ", " valid_sections =
        "characters, equipment, locations, story_sections, general_content" := by decide
    rw [hlit]
    simp only [String.append_assoc]
    congr 1
  · intro hav hres
    rw [filter_by_section_query]
    rw [if_neg (by simp [hav]), hmap]
    dsimp only
    rw [hres]
    rfl

/-- C7 witness: the behaviors at section `"weapons"` on the sample
database. -/
theorem c7_invalid_section_witness :
    filter_by_section_db exManualDb "weapons" "laser" =
      "Invalid section 'weapons'. Valid sections: characters, equipment, locations, story_sections, general_content"
    ∧ filter_by_section_query exManualDb "weapons" "laser" =
      "No results found for 'laser' in section 'weapons'" :=
  ⟨(c7_invalid_section exManualDb "weapons" "laser" (by decide)).1,
   (c7_invalid_section exManualDb "weapons" "laser" (by decide)).2.2 (by decide) (by decide)⟩

/-- C8 counterexample: dispatching `search_manual` with no arguments is not
answered by a pre-dispatch Validation error: the API's `execute_tool`
raises `KeyError('query')`, and the MCP server's `call_tool` silently
substitutes the empty string and runs the search — its output does not even
mention the missing field. -/
theorem c8_missing_argument_counterexample :
    execute_tool emptyDb "search_manual" [] = .keyError "query" ∧
    call_tool emptyDb "search_manual" [] = "No results found for ''" ∧
    hasSubstr (call_tool emptyDb "search_manual" []) "query" = false := by
  refine ⟨by decide, by decide, by decide⟩

/-- C8 amended: the tool registry declares required arguments in each
tool's schema, but dispatch itself does not validate them.  With a required
argument absent, the API's `execute_tool` raises a `KeyError` naming the
missing field (which aborts the whole request instead of returning a
Validation result), and the MCP server's `call_tool` substitutes a default
(`""`, or `0` for `page_number`) and invokes the tool anyway. -/
theorem c8_dispatch_no_validation (db : Db) (args : Args)
    (hq : getStrArg args "query" = none) (hp : getIntArg args "page_number" = none) :
    execute_tool db "search_manual" args = .keyError "query"
    ∧ execute_tool db "show_page" args = .keyError "page_number"
    ∧ call_tool db "search_manual" args = search_manual_query db ""
    ∧ call_tool db "show_page" args = show_page_query db 0 := by
  refine ⟨?_, ?_, ?_, ?_⟩
  · rw [execute_tool, if_pos rfl, hq]
  · rw [execute_tool, if_neg (by decide), if_pos rfl, hp]
  · rw [call_tool, if_neg (by decide), if_pos rfl, hq]
    rfl
  · rw [call_tool, if_neg (by decide), if_neg (by decide), if_neg (by decide), if_pos rfl, hp]
    rfl

/-- C8 witness: the empty argument object against the sample database. -/
theorem c8_dispatch_no_validation_witness :
    execute_tool emptyDb "search_manual" [] = .keyError "query"
    ∧ execute_tool emptyDb "show_page" [] = .keyError "page_number"
    ∧ call_tool emptyDb "search_manual" [] = search_manual_query emptyDb ""
    ∧ call_tool emptyDb "show_page" [] = show_page_query emptyDb 0 :=
  c8_dispatch_no_validation emptyDb [] rfl rfl

lemma take10_eq_nil {α : Type} {l : List α} : l.take 10 = [] ↔ l = [] := by
  simp [List.take_eq_nil_iff]

/-- C9 counterexample: the query `"hut"` matches a building entity, yet the
API's `quick_search` answers with the no-entities sentinel — it searches
only the characters table, not every entity kind. -/
theorem c9_quick_search_counterexample :
    buildingMatch "hut" ⟨ "Warm Hut", "A small shelter", "rest" ⟩ = true ∧
    (⟨ "Warm Hut", "A small shelter", "rest" ⟩ : Building) ∈ exEntityDb.buildings ∧
    quick_search_db exEntityDb "hut" = "No entities found matching 'hut'" := by
  refine ⟨by decide, by decide, by decide⟩

/-- C9 amended: the MCP server's `quick_search` substring-matches
characters, buildings and enemy vehicles (name field OR
description/search-text field), caps each kind at 10 rows, groups the hits
into labeled blocks per kind, and answers the "no entities found" sentinel
exactly when none of those three kinds has a match; the `skills` table is
never searched, and the API's `quick_search` searches characters only
(answering the sentinel whenever no character matches, even if other
entities do). -/
theorem c9_quick_search_kinds (db : Db) (query : String) :
    ((db.characters.filter (charMatch query)).take 10).length ≤ 10
    ∧ ((db.buildings.filter (buildingMatch query)).take 10).length ≤ 10
    ∧ ((db.enemy_vehicles.filter (vehicleMatch query)).take 10).length ≤ 10
    ∧ (quickSearchBlocks db query = [] ↔
        (db.characters.filter (charMatch query) = [] ∧
         db.buildings.filter (buildingMatch query) = [] ∧
         db.enemy_vehicles.filter (vehicleMatch query) = []))
    ∧ (quickSearchBlocks db query = [] →
        quick_search_query db query = "No entities found matching '" ++ query ++ "'")
    ∧ (quickSearchBlocks db query ≠ [] →
        quick_search_query db query = String.intercalate "\n" (quickSearchBlocks db query))
    ∧ (∀ sk, quick_search_query { db with skills := sk } query = quick_search_query db query)
    ∧ ((db.characters.filter (charMatch query)).take 10 = [] →
        quick_search_db db query = "No entities found matching '" ++ query ++ "'") := by
  refine ⟨List.length_take_le 10 _, List.length_take_le 10 _, List.length_take_le 10 _,
    ?_, ?_, ?_, ?_, ?_⟩
  · by_cases hc : (db.characters.filter (charMatch query)).take 10 = [] <;>
    by_cases hb : (db.buildings.filter (buildingMatch query)).take 10 = [] <;>
    by_cases hv : (db.enemy_vehicles.filter (vehicleMatch query)).take 10 = [] <;>
    rw [take10_eq_nil] at hc hb hv <;>
    simp [quickSearchBlocks, take10_eq_nil, hc, hb, hv]
  · intro h
    simp [quick_search_query, h]
  · intro h
    simp [quick_search_query, h]
  · intro sk
    rfl
  · intro h
    simp [quick_search_db, h]

/-- C9 witness: the query `"hut"` on the sample entity database — the
server implementation renders its blocks, the API implementation answers
the sentinel. -/
theorem c9_quick_search_kinds_witness :
    quick_search_db exEntityDb "hut" = "No entities found matching 'hut'" ∧
    quick_search_query exEntityDb "hut" =
      String.intercalate "\n" (quickSearchBlocks exEntityDb "hut") :=
  ⟨(c9_quick_search_kinds exEntityDb "hut").2.2.2.2.2.2.2 (by decide),
   (c9_quick_search_kinds exEntityDb "hut").2.2.2.2.2.1 (by decide)⟩

/-- C10: when every whitespace-separated query word has length at most 2
and the indexed tier yields zero rows, `search_manual` answers the
no-results sentinel without the substring fallback producing anything —
even on databases whose page contents do contain those words. -/
theorem c10_short_words_skip_fallback (db : Db) (query : String)
    (hw : ∀ w ∈ pyWords query, w.length ≤ 2)
    (h1 : tier1Rows db query = []) :
    tier2Pages db query = [] ∧
    search_manual_db db query =
      "No results found for '" ++ query ++ "'. Try different keywords or check spelling." := by
  have hlw : likeWords query = [] := by
    rw [likeWords, List.filter_eq_nil_iff]
    intro w hwm
    simpa using Nat.not_lt.2 (hw w hwm)
  have h2 : tier2Pages db query = [] := by
    rw [tier2Pages, if_neg (by simp [hlw])]
  have h3 : searchRows db query = [] := by
    rw [searchRows, if_pos h1, tier2Rows, h2]
    rfl
  exact ⟨h2, by simp [search_manual_db, h3]⟩

/-- C10 witness: the query `"it is"` against a database whose first page
content does contain the word `"it"`. -/
theorem c10_short_words_witness :
    containsCI "it is snowing" "it" = true ∧
    search_manual_db exFallbackDb "it is" =
      "No results found for 'it is'. Try different keywords or check spelling." :=
  ⟨by decide,
   (c10_short_words_skip_fallback exFallbackDb "it is" (by decide) (by decide)).2⟩
